import Mathlib

/-!
Shallow embedding of the ChatMCA Django chat relay (`chatMCA/views.py`),
covering the pieces exercised by the specification: input sanitization,
the fixed-window rate limiter, the conversation-context builder, the
multi-attempt completion client (`BulletproofGeminiHandler.generate_response`)
and the error classification of the chat endpoint.

Python strings are modelled as Lean `String`s, with the character-level
scanning (strip, substring search, lowering) carried out on `List Char`.
Wall-clock times and backoff delays are modelled as rationals.
-/

namespace ChatMCA

/-! Python string primitives -/

/-- The whitespace characters removed by Python `str.strip()` with no
argument (the ASCII ones; the inputs of interest are ASCII). -/
def isPySpace (c : Char) : Bool :=
  c = ' ' || c = '\t' || c = '\n' || c = '\r' || c = '\x0b' || c = '\x0c'

/-- Python `str.strip()` on a character list: drop whitespace from both ends. -/
def pyStrip (cs : List Char) : List Char :=
  ((cs.dropWhile isPySpace).reverse.dropWhile isPySpace).reverse

/-- Python `str.strip()` on a string. -/
def pyTrim (s : String) : String :=
  String.mk (pyStrip s.toList)

/-- Whether `pat` is a prefix of `cs` (Boolean, character lists). -/
def isPrefixB : List Char → List Char → Bool
  | [], _ => true
  | _ :: _, [] => false
  | p :: ps, c :: cs => p = c && isPrefixB ps cs

/-- Python `pat in s` substring test on character lists. -/
def containsB (pat : List Char) : List Char → Bool
  | [] => pat.isEmpty
  | c :: cs => isPrefixB pat (c :: cs) || containsB pat cs

/-- Python `pat in s` substring test on strings. -/
def containsS (s pat : String) : Bool :=
  containsB pat.toList s.toList

/-- Python `str.lower()` (ASCII case folding). -/
def pyLower (s : String) : String :=
  String.mk (s.toList.map Char.toLower)

/-! Input validation (`sanitize_input`, views.py lines 177-187) -/

/-- One leftmost-match step of the regex `<[^>]+>` used by
`re.sub(r'<[^>]+>', '', message)`: `cs` is the text following a `<`;
the tag matches when at least one character other than `>` follows and a
`>` closes it, and the remainder after that `>` is returned. -/
def matchTag (cs : List Char) : Option (List Char) :=
  let run := cs.takeWhile (fun c => c != '>')
  let rest := cs.dropWhile (fun c => c != '>')
  if run.isEmpty then none
  else
    match rest with
    | [] => none
    | _ :: tail => some tail

theorem dropWhile_length_le (p : Char → Bool) (l : List Char) :
    (l.dropWhile p).length ≤ l.length := by
  induction l with
  | nil => simp
  | cons a l ih =>
    rw [List.dropWhile_cons]
    split
    · exact Nat.le_succ_of_le ih
    · simp

theorem matchTag_length {cs tail : List Char} (h : matchTag cs = some tail) :
    tail.length < cs.length := by
  unfold matchTag at h
  by_cases hrun : (cs.takeWhile (fun c => c != '>')).isEmpty
  · simp [hrun] at h
  · simp only [hrun, if_false] at h
    cases hd : cs.dropWhile (fun c => c != '>') with
    | nil => rw [hd] at h; exact absurd h (by simp)
    | cons c rest =>
      rw [hd] at h
      simp at h
      subst h
      have hle : (cs.dropWhile (fun c => c != '>')).length ≤ cs.length :=
        dropWhile_length_le _ cs
      rw [hd] at hle
      simp at hle
      omega

/-- Model of `re.sub(r'<[^>]+>', '', message)`: delete every leftmost match of
`<[^>]+>`, rescanning after each match, copying unmatched characters. -/
def stripTags : List Char → List Char
  | [] => []
  | c :: rest =>
    if c = '<' then
      match h : matchTag rest with
      | some tail => stripTags tail
      | none => c :: stripTags rest
    else c :: stripTags rest
termination_by cs => cs.length
decreasing_by
  · simp only [List.length_cons]
    exact Nat.lt_succ_of_lt (matchTag_length h)
  · simp only [List.length_cons]
    omega
  · simp only [List.length_cons]
    omega

/-- Python `html.escape` on one character (quote=True, the default): `&`, `<`,
`>`, `"` and the apostrophe (code point 39) become entities. -/
def escapeChar (c : Char) : List Char :=
  if c = '&' then "&amp;".toList
  else if c = '<' then "&lt;".toList
  else if c = '>' then "&gt;".toList
  else if c = '"' then "&quot;".toList
  else if c = Char.ofNat 39 then "&#x27;".toList
  else [c]

/-- Python `html.escape` over a character list. -/
def htmlEscape (cs : List Char) : List Char :=
  cs.flatMap escapeChar

inductive InputError where
  | EmptyInput
  | TooLong
deriving DecidableEq

/-- Model of `sanitize_input(message)`: raises "Please enter a message" when the
message is falsy or blank after stripping, then "Message too long" when
over 1200 characters, else strips tags, trims, and HTML-escapes. -/
def sanitize_input (message : String) : Except InputError String :=
  if message.toList.isEmpty || (pyStrip message.toList).isEmpty then
    .error .EmptyInput
  else if message.length > 1200 then
    .error .TooLong
  else
    .ok (String.mk (htmlEscape (pyStrip (stripTags message.toList))))

/-! Rate limiter (`rate_limit_check`, views.py lines 160-175)

The cache is modelled from this client's point of view: `stored` is what
`cache.get(cache_key, [])` returns (`none` when the key is absent) and
the second component of the result records the `cache.set` calls the
function performs, in order, with their value and TTL. -/

structure CacheWrite where
  value : List ℚ
  ttl : ℚ
deriving DecidableEq

def rate_limit_check (stored : Option (List ℚ)) (now : ℚ)
    (max_requests : ℕ := 8) (window : ℚ := 60) : Bool × List CacheWrite :=
  let requests := (stored.getD []).filter (fun t => now - t < window)
  if requests.length ≥ max_requests then
    (false, [])
  else
    (true, [⟨requests ++ [now], window⟩])

/-! Conversation context (`build_conversation_context`, views.py 207-219) -/

/-- The two persisted text fields of a `ChatMessage` row that the context
builder reads; the list stands for the session's messages already ordered
by ascending `timestamp`, as produced by `order_by('timestamp')`. -/
structure ChatMessageRec where
  user_message : String
  ai_response : String
deriving DecidableEq

/-- One role-tagged entry of the context sent to the generation API. -/
structure Turn where
  role : String
  parts : List String
deriving DecidableEq

def userTurn (text : String) : Turn := ⟨"user", [text]⟩

def modelTurn (text : String) : Turn := ⟨"model", [text]⟩

/-- The `for msg in messages` loop body: each message contributes one
user turn then one model turn, in order. -/
def expandTurns : List ChatMessageRec → List Turn
  | [] => []
  | msg :: rest => userTurn msg.user_message :: modelTurn msg.ai_response :: expandTurns rest

def build_conversation_context (messages : List ChatMessageRec)
    (max_messages : ℕ := 6) : List Turn :=
  let msgs :=
    if messages.length > max_messages then
      messages.drop (messages.length - max_messages)
    else messages
  expandTurns msgs

/-! Completion client (`BulletproofGeminiHandler.generate_response`,
views.py lines 86-155)

The external model call is a parameter `call attempt context`: what the
upstream returns for the call issued at attempt index `attempt` with
payload `context`.  `UpResult.ok text` is a response object whose `.text`
is `text` (a falsy/absent `.text` is `ok ""`); `UpResult.err msg` is a
raised exception with `str(e) = msg`.  `jitter attempt` stands for the
`random.uniform(0.5, 1.5)` draw of that attempt's backoff.  The result
carries the outcome, the number of upstream calls issued, and the list of
`time.sleep` delays in order. -/

inductive UpResult where
  | ok (text : String)
  | err (msg : String)
deriving DecidableEq

inductive Outcome where
  | success (text : String)
  | unavailable
  | fatal (msg : String)
  | exhausted
deriving DecidableEq

/-- Context chosen for attempt index `attempt` (views.py lines 99-115):
progressive simplification from full history down to the bare message. -/
def attemptContext (messages : List Turn) (user_message : String)
    (attempt : ℕ) : List Turn :=
  if attempt = 0 then
    messages ++ [userTurn user_message]
  else if attempt = 1 then
    (if messages.length > 8 then messages.drop (messages.length - 8) else messages)
      ++ [userTurn user_message]
  else if attempt = 2 then
    (if messages.length > 4 then messages.drop (messages.length - 4) else messages)
      ++ [userTurn user_message]
  else if attempt = 3 then
    [userTurn ("Previous conversation context: " ++ toString (messages.length / 2)
      ++ " messages exchanged.\n\nCurrent question: " ++ user_message)]
  else
    [userTurn user_message]

/-- The check `any(keyword in error_msg for keyword in ['quota','billing','key','auth'])`
on the lowered message. -/
def fatalKeyword (msg : String) : Bool :=
  let error_msg := pyLower msg
  ["quota", "billing", "key", "auth"].any (fun kw => containsS error_msg kw)

/-- The `for attempt in range(max_attempts)` loop: the first argument list
is the remaining attempt indices.  A non-blank response returns its
stripped text at once; a fatal-keyword error re-raises; any other error
sleeps `(attempt+1)*2 + jitter` unless this was the final attempt; an
empty/blank response falls through to the next attempt with no sleep
(the backoff in the source sits inside the `except` block). -/
def genLoop (call : ℕ → List Turn → UpResult) (jitter : ℕ → ℚ)
    (messages : List Turn) (user_message : String) (max_attempts : ℕ) :
    List ℕ → ℕ → List ℚ → Outcome × ℕ × List ℚ
  | [], calls, sleeps => (.exhausted, calls, sleeps)
  | attempt :: rest, calls, sleeps =>
    let context := attemptContext messages user_message attempt
    match call attempt context with
    | .ok text =>
      if (pyStrip text.toList).length > 0 then
        (.success (pyTrim text), calls + 1, sleeps)
      else
        genLoop call jitter messages user_message max_attempts rest (calls + 1) sleeps
    | .err msg =>
      if fatalKeyword msg then
        (.fatal msg, calls + 1, sleeps)
      else if attempt < max_attempts - 1 then
        genLoop call jitter messages user_message max_attempts rest (calls + 1)
          (sleeps ++ [((attempt : ℚ) + 1) * 2 + jitter attempt])
      else
        genLoop call jitter messages user_message max_attempts rest (calls + 1) sleeps

/-- Model of `generate_response(messages, user_message, max_attempts=5)`.
`initialized` is the handler's flag after the on-demand re-initialization
of lines 89-90; when false the method raises
"AI service is temporarily unavailable" without calling upstream. -/
def generate_response (initialized : Bool) (call : ℕ → List Turn → UpResult)
    (jitter : ℕ → ℚ) (messages : List Turn) (user_message : String)
    (max_attempts : ℕ := 5) : Outcome × ℕ × List ℚ :=
  if initialized then
    genLoop call jitter messages user_message max_attempts
      (List.range max_attempts) 0 []
  else
    (.unavailable, 0, [])

/-! Chat endpoint error classification (`chat_api`, views.py 281-295) -/

def msgQuota : String := "API quota reached. Please try again in a few minutes."

def msgAuth : String := "Authentication issue. Please check your setup."

def msgDemand : String := "I'm experiencing high demand right now. Please try again in a moment."

def msgGeneric : String := "I'm having temporary difficulties. Please try again shortly."

/-- The keyword classification of `str(ai_error).lower()` into a canned
user-facing message. -/
def classify_ai_error (ai_error : String) : String :=
  let error_msg := pyLower ai_error
  if containsS error_msg "quota" || containsS error_msg "billing" then msgQuota
  else if containsS error_msg "key" || containsS error_msg "auth" then msgAuth
  else if containsS error_msg "unavailable" then msgDemand
  else msgGeneric

/-- The `except Exception as ai_error` branch: HTTP status and error body
returned to the client. -/
def chat_api_ai_error_response (ai_error : String) : ℕ × String :=
  (503, classify_ai_error ai_error)

/-- The success path of `chat_api` around the AI call (views.py 251-267):
build the context from the session's messages with `max_messages=4`, call
`generate_response`, and on success persist a `ChatMessage` row holding
the sanitized user message and the returned text; `none` when the call
does not return normally. -/
def chat_api_persist (session_msgs : List ChatMessageRec) (user_message : String)
    (initialized : Bool) (call : ℕ → List Turn → UpResult) (jitter : ℕ → ℚ) :
    Option ChatMessageRec :=
  let chat_history := build_conversation_context session_msgs 4
  match generate_response initialized call jitter chat_history user_message 5 with
  | (.success t, _, _) => some ⟨user_message, t⟩
  | _ => none

/-! Helper lemmas -/

theorem genLoop_nil (call : ℕ → List Turn → UpResult) (jitter : ℕ → ℚ)
    (m : List Turn) (u : String) (n calls : ℕ) (sleeps : List ℚ) :
    genLoop call jitter m u n [] calls sleeps = (.exhausted, calls, sleeps) := rfl

theorem genLoop_cons_ok_text {call : ℕ → List Turn → UpResult} {jitter : ℕ → ℚ}
    {m : List Turn} {u : String} {n a : ℕ} {rest : List ℕ} {calls : ℕ}
    {sleeps : List ℚ} {s : String}
    (h : call a (attemptContext m u a) = .ok s) (hs : pyStrip s.toList ≠ []) :
    genLoop call jitter m u n (a :: rest) calls sleeps
      = (.success (pyTrim s), calls + 1, sleeps) := by
  have hl : (pyStrip s.toList).length > 0 := List.length_pos.mpr hs
  simp only [genLoop, h, if_pos hl]

theorem genLoop_cons_ok_blank {call : ℕ → List Turn → UpResult} {jitter : ℕ → ℚ}
    {m : List Turn} {u : String} {n a : ℕ} {rest : List ℕ} {calls : ℕ}
    {sleeps : List ℚ} {s : String}
    (h : call a (attemptContext m u a) = .ok s) (hs : pyStrip s.toList = []) :
    genLoop call jitter m u n (a :: rest) calls sleeps
      = genLoop call jitter m u n rest (calls + 1) sleeps := by
  have hl : ¬ (pyStrip s.toList).length > 0 := by rw [hs]; simp
  simp only [genLoop, h, if_neg hl]

theorem genLoop_cons_err_fatal {call : ℕ → List Turn → UpResult} {jitter : ℕ → ℚ}
    {m : List Turn} {u : String} {n a : ℕ} {rest : List ℕ} {calls : ℕ}
    {sleeps : List ℚ} {e : String}
    (h : call a (attemptContext m u a) = .err e) (hf : fatalKeyword e = true) :
    genLoop call jitter m u n (a :: rest) calls sleeps
      = (.fatal e, calls + 1, sleeps) := by
  simp only [genLoop, h, hf, if_pos]

theorem genLoop_cons_err_retry {call : ℕ → List Turn → UpResult} {jitter : ℕ → ℚ}
    {m : List Turn} {u : String} {n a : ℕ} {rest : List ℕ} {calls : ℕ}
    {sleeps : List ℚ} {e : String}
    (h : call a (attemptContext m u a) = .err e) (hf : fatalKeyword e = false)
    (ha : a < n - 1) :
    genLoop call jitter m u n (a :: rest) calls sleeps
      = genLoop call jitter m u n rest (calls + 1)
          (sleeps ++ [((a : ℚ) + 1) * 2 + jitter a]) := by
  simp only [genLoop, h, hf, Bool.false_eq_true, if_false, if_pos ha]

theorem genLoop_cons_err_last {call : ℕ → List Turn → UpResult} {jitter : ℕ → ℚ}
    {m : List Turn} {u : String} {n a : ℕ} {rest : List ℕ} {calls : ℕ}
    {sleeps : List ℚ} {e : String}
    (h : call a (attemptContext m u a) = .err e) (hf : fatalKeyword e = false)
    (ha : ¬ a < n - 1) :
    genLoop call jitter m u n (a :: rest) calls sleeps
      = genLoop call jitter m u n rest (calls + 1) sleeps := by
  simp only [genLoop, h, hf, Bool.false_eq_true, if_false, if_neg ha]

/-- Any normal return of the attempt loop is the stripped text of some
upstream response issued at one of the loop's attempt indices. -/
theorem genLoop_success_source {call : ℕ → List Turn → UpResult} {jitter : ℕ → ℚ}
    {m : List Turn} {u : String} {n : ℕ} :
    ∀ (attempts : List ℕ) (calls : ℕ) (sleeps : List ℚ) (t : String) (c : ℕ)
      (sl : List ℚ),
      genLoop call jitter m u n attempts calls sleeps = (.success t, c, sl) →
      ∃ a ∈ attempts, ∃ s, call a (attemptContext m u a) = .ok s ∧
        pyStrip s.toList ≠ [] ∧ t = pyTrim s := by
  intro attempts
  induction attempts with
  | nil =>
    intro calls sleeps t c sl h
    rw [genLoop_nil] at h
    exact absurd h (by simp)
  | cons a rest ih =>
    intro calls sleeps t c sl h
    cases hc : call a (attemptContext m u a) with
    | ok s =>
      by_cases hs : pyStrip s.toList = []
      · rw [genLoop_cons_ok_blank hc hs] at h
        obtain ⟨b, hb, w, hw⟩ := ih _ _ _ _ _ h
        exact ⟨b, List.mem_cons_of_mem a hb, w, hw⟩
      · rw [genLoop_cons_ok_text hc hs] at h
        have ht : t = pyTrim s := by
          have := congrArg Prod.fst h
          simpa using this.symm
        exact ⟨a, List.mem_cons_self a rest, s, hc, hs, ht⟩
    | err e =>
      cases hf : fatalKeyword e with
      | true =>
        rw [genLoop_cons_err_fatal hc hf] at h
        exact absurd (congrArg Prod.fst h) (by simp)
      | false =>
        by_cases ha : a < n - 1
        · rw [genLoop_cons_err_retry hc hf ha] at h
          obtain ⟨b, hb, w, hw⟩ := ih _ _ _ _ _ h
          exact ⟨b, List.mem_cons_of_mem a hb, w, hw⟩
        · rw [genLoop_cons_err_last hc hf ha] at h
          obtain ⟨b, hb, w, hw⟩ := ih _ _ _ _ _ h
          exact ⟨b, List.mem_cons_of_mem a hb, w, hw⟩

theorem dropWhile_prefix_fixed {p : Char → Bool} {y z : List Char}
    (hy : y.dropWhile p = y) (hz : z <+: y) : z.dropWhile p = z := by
  cases z with
  | nil => simp
  | cons a zt =>
    obtain ⟨rest, hrest⟩ := hz
    have hpa : ¬ p a = true := by
      intro hp
      have hlt : (y.dropWhile p).length < y.length := by
        rw [← hrest, List.cons_append, List.dropWhile_cons, if_pos hp]
        calc ((zt ++ rest).dropWhile p).length
            ≤ (zt ++ rest).length := dropWhile_length_le p (zt ++ rest)
          _ < (a :: (zt ++ rest)).length := by simp
      rw [hy] at hlt
      exact absurd hlt (lt_irrefl _)
    rw [List.dropWhile_cons, if_neg hpa]

theorem pyStrip_idem (cs : List Char) : pyStrip (pyStrip cs) = pyStrip cs := by
  have hshape : ∀ l : List Char,
      pyStrip l = List.rdropWhile isPySpace (l.dropWhile isPySpace) := by
    intro l; rfl
  rw [hshape, hshape]
  have h1 : (cs.dropWhile isPySpace).dropWhile isPySpace
      = cs.dropWhile isPySpace := List.dropWhile_idempotent _ _
  have h2 : (List.rdropWhile isPySpace (cs.dropWhile isPySpace)).dropWhile isPySpace
      = List.rdropWhile isPySpace (cs.dropWhile isPySpace) :=
    dropWhile_prefix_fixed h1 ( List.rdropWhile_prefix _ _)
  rw [h2, List.rdropWhile_idempotent]

theorem pyTrim_idem (s : String) : pyTrim (pyTrim s) = pyTrim s := by
  show String.mk (pyStrip (String.mk (pyStrip s.toList)).toList) = _
  show String.mk (pyStrip (pyStrip s.toList)) = _
  rw [pyStrip_idem]
  rfl

theorem expandTurns_length (l : List ChatMessageRec) :
    (expandTurns l).length = 2 * l.length := by
  induction l with
  | nil => rfl
  | cons msg rest ih => simp [expandTurns, ih]; ring

theorem expandTurns_getElem (l : List ChatMessageRec) (i : ℕ) :
    (expandTurns l)[2 * i]? = l[i]?.map (fun r => userTurn r.user_message) ∧
    (expandTurns l)[2 * i + 1]? = l[i]?.map (fun r => modelTurn r.ai_response) := by
  induction l generalizing i with
  | nil => simp [expandTurns]
  | cons msg rest ih =>
    cases i with
    | zero => simp [expandTurns]
    | succ j =>
      have h2 : 2 * (j + 1) = (2 * j + 1) + 1 := by ring
      rw [h2]
      simp only [expandTurns, List.getElem?_cons_succ]
      exact ih j

/-- The truncation `messages[-max:] if len > max else messages` is plain
`drop (length - max)` in natural-number subtraction. -/
theorem lastWindow_eq_drop {α : Type} (l : List α) (m : ℕ) :
    (if l.length > m then l.drop (l.length - m) else l) = l.drop (l.length - m) := by
  split
  · rfl
  · rw [Nat.sub_eq_zero_of_le (by omega), List.drop_zero]

/-! Claim theorems -/

/-- C1: for every history list and user message, `generate_response`
builds the context for attempt index k as follows: attempt 0 uses the
full history followed by one new user turn; attempt 1 uses the last 8
turns of history (or all of them if 8 or fewer) followed by the new user
turn; attempt 2 uses the last 4 turns (or all if fewer) followed by the
new user turn; attempt 3 uses a single synthetic user turn summarizing
the turn count as "N messages exchanged" (N being the number of
user/model pairs, `turns / 2`) together with the user message collapsed
into one turn; every attempt with index 4 or greater uses the user
message alone with no history. -/
theorem c1_attempt_context_schedule (messages : List Turn) (u : String) :
    attemptContext messages u 0 = messages ++ [userTurn u] ∧
    attemptContext messages u 1
      = messages.drop (messages.length - 8) ++ [userTurn u] ∧
    attemptContext messages u 2
      = messages.drop (messages.length - 4) ++ [userTurn u] ∧
    attemptContext messages u 3
      = [userTurn ("Previous conversation context: "
          ++ toString (messages.length / 2)
          ++ " messages exchanged.\n\nCurrent question: " ++ u)] ∧
    ∀ k, 4 ≤ k → attemptContext messages u k = [userTurn u] := by
  refine ⟨rfl, ?_, ?_, rfl, ?_⟩
  · show (if messages.length > 8 then messages.drop (messages.length - 8)
      else messages) ++ [userTurn u] = _
    rw [lastWindow_eq_drop]
  · show (if messages.length > 4 then messages.drop (messages.length - 4)
      else messages) ++ [userTurn u] = _
    rw [lastWindow_eq_drop]
  · intro k hk
    unfold attemptContext
    rw [if_neg (by omega), if_neg (by omega), if_neg (by omega),
      if_neg (by omega)]

theorem c1_attempt_context_schedule_witness :
    attemptContext [userTurn "a"] "hello" 0 = [userTurn "a", userTurn "hello"] ∧
    attemptContext [userTurn "a"] "hello" 5 = [userTurn "hello"] := by
  have h := c1_attempt_context_schedule [userTurn "a"] "hello"
  exact ⟨by simpa using h.1, h.2.2.2.2 5 (by norm_num)⟩

/-- C2: with the handler initialized, if the upstream returns blank
(empty or whitespace-only) text on attempts 1 and 2 and text that is
non-empty once trimmed on attempt 3, then `generate_response` returns
that attempt-3 text trimmed after exactly 3 upstream calls, with no
attempt 4 or 5 issued and no backoff sleep. -/
theorem c2_success_on_third_attempt (call : ℕ → List Turn → UpResult)
    (jitter : ℕ → ℚ) (messages : List Turn) (u t : String)
    (h0 : ∀ ctx, ∃ s, call 0 ctx = .ok s ∧ pyStrip s.toList = [])
    (h1 : ∀ ctx, ∃ s, call 1 ctx = .ok s ∧ pyStrip s.toList = [])
    (h2 : ∀ ctx, call 2 ctx = .ok t)
    (ht : pyStrip t.toList ≠ []) :
    generate_response true call jitter messages u 5
      = (.success (pyTrim t), 3, []) := by
  obtain ⟨s0, hc0, hs0⟩ := h0 (attemptContext messages u 0)
  obtain ⟨s1, hc1, hs1⟩ := h1 (attemptContext messages u 1)
  have hc2 := h2 (attemptContext messages u 2)
  show genLoop call jitter messages u 5 (List.range 5) 0 [] = _
  rw [show List.range 5 = [0, 1, 2, 3, 4] from rfl]
  rw [genLoop_cons_ok_blank hc0 hs0, genLoop_cons_ok_blank hc1 hs1,
    genLoop_cons_ok_text hc2 ht]

theorem c2_success_on_third_attempt_witness :
    generate_response true
      (fun i _ => if i < 2 then UpResult.ok " " else UpResult.ok " All good! ")
      (fun _ => 1) [] "q" 5 = (.success (pyTrim " All good! "), 3, []) := by
  apply c2_success_on_third_attempt
  · intro ctx; exact ⟨" ", rfl, rfl⟩
  · intro ctx; exact ⟨" ", rfl, rfl⟩
  · intro ctx; rfl
  · decide

/-- C3: with the handler initialized, if the first upstream call raises
an error whose message contains one of the keywords quota, billing, key,
auth (case-insensitively), `generate_response` propagates that error as a
fatal failure after exactly one upstream call, with no backoff sleep and
no further attempts consumed. -/
theorem c3_fatal_error_short_circuit (call : ℕ → List Turn → UpResult)
    (jitter : ℕ → ℚ) (messages : List Turn) (u e : String)
    (h : call 0 (attemptContext messages u 0) = .err e)
    (hf : fatalKeyword e = true) :
    generate_response true call jitter messages u 5 = (.fatal e, 1, []) := by
  show genLoop call jitter messages u 5 (List.range 5) 0 [] = _
  rw [show List.range 5 = [0, 1, 2, 3, 4] from rfl,
    genLoop_cons_err_fatal h hf]

theorem c3_fatal_error_short_circuit_witness :
    generate_response true (fun _ _ => UpResult.err "429 Quota exceeded for project")
      (fun _ => 1) [] "q" 5
      = (.fatal "429 Quota exceeded for project", 1, []) := by
  apply c3_fatal_error_short_circuit
  · rfl
  · decide

/-- C4 counterexample: a scripted upstream returning empty text at
attempt index 0 and valid text at index 1.  The first attempt is a
retryable failure and is not the final attempt — a second upstream call
follows (2 calls total) — yet the recorded sleep log is empty: the
backoff sleep of (0+1)*2 + jitter seconds the claim requires between the
two attempts never happens, because in the source the backoff sits
inside the `except` block and an empty response raises nothing. -/
theorem c4_counterexample :
    (fun (i : ℕ) (_ : List Turn) =>
        if i = 0 then UpResult.ok "" else UpResult.ok "hi") 0
      (attemptContext [] "q" 0) = UpResult.ok "" ∧
    generate_response true
      (fun i _ => if i = 0 then UpResult.ok "" else UpResult.ok "hi")
      (fun _ => 1) [] "q" 5 = (.success "hi", 2, []) :=
  ⟨rfl, rfl⟩

/-- C4 amended: only retryable upstream errors trigger the backoff.
After a retryable (non-fatal) error on an attempt other than the final
one, exactly one delay of (attemptIndex+1)*2 seconds plus the jitter draw
— lying in [(attemptIndex+1)*2 + 0.5, (attemptIndex+1)*2 + 1.5) whenever
the draw lies in [0.5, 1.5) — is appended to the sleep log before the
next attempt; a retryable error on the final attempt appends no delay;
and an empty/whitespace-only response proceeds to the next attempt with
no sleep at all. -/
theorem c4_backoff_only_after_errors (call : ℕ → List Turn → UpResult)
    (jitter : ℕ → ℚ) (m : List Turn) (u : String) (n a : ℕ) (rest : List ℕ)
    (calls : ℕ) (sleeps : List ℚ) (e s : String)
    (hj : (1 : ℚ)/2 ≤ jitter a ∧ jitter a < 3/2) :
    (call a (attemptContext m u a) = .err e → fatalKeyword e = false →
      a < n - 1 →
      genLoop call jitter m u n (a :: rest) calls sleeps
        = genLoop call jitter m u n rest (calls + 1)
            (sleeps ++ [((a : ℚ) + 1) * 2 + jitter a]) ∧
      ((a : ℚ) + 1) * 2 + 1/2 ≤ ((a : ℚ) + 1) * 2 + jitter a ∧
      ((a : ℚ) + 1) * 2 + jitter a < ((a : ℚ) + 1) * 2 + 3/2) ∧
    (call a (attemptContext m u a) = .err e → fatalKeyword e = false →
      ¬ a < n - 1 →
      genLoop call jitter m u n (a :: rest) calls sleeps
        = genLoop call jitter m u n rest (calls + 1) sleeps) ∧
    (call a (attemptContext m u a) = .ok s → pyStrip s.toList = [] →
      genLoop call jitter m u n (a :: rest) calls sleeps
        = genLoop call jitter m u n rest (calls + 1) sleeps) := by
  refine ⟨fun h hf ha => ⟨genLoop_cons_err_retry h hf ha, ?_, ?_⟩,
    fun h hf ha => genLoop_cons_err_last h hf ha,
    fun h hs => genLoop_cons_ok_blank h hs⟩
  · linarith [hj.1]
  · linarith [hj.2]

theorem c4_backoff_only_after_errors_witness :
    genLoop (fun _ _ => UpResult.err "boom") (fun _ => 1) [] "q" 5 [0, 1] 0 []
      = genLoop (fun _ _ => UpResult.err "boom") (fun _ => 1) [] "q" 5 [1] 1 [3] := by
  have h := (c4_backoff_only_after_errors (fun _ _ => UpResult.err "boom")
    (fun _ => 1) [] "q" 5 0 [1] 0 [] "boom" "" (by norm_num)).1
    rfl (by decide) (by norm_num)
  have h1 := h.1
  norm_num at h1
  exact h1

/-! Auxiliary facts about `str.strip()` of homogeneous inputs. -/

theorem dropWhile_replicate_space (n : ℕ) :
    (List.replicate n ' ').dropWhile isPySpace = [] := by
  induction n with
  | zero => rfl
  | succ k ih =>
    rw [List.replicate_succ, List.dropWhile_cons_of_pos (by decide), ih]

theorem pyStrip_replicate_space (n : ℕ) :
    pyStrip (List.replicate n ' ') = [] := by
  unfold pyStrip
  rw [dropWhile_replicate_space]
  rfl

theorem pyStrip_replicate_nonspace {c : Char} (hc : ¬ isPySpace c = true)
    (n : ℕ) : pyStrip (List.replicate n c) = List.replicate n c := by
  have hdrop : ∀ m : ℕ,
      (List.replicate m c).dropWhile isPySpace = List.replicate m c := by
    intro m
    cases m with
    | zero => rfl
    | succ k =>
      rw [List.replicate_succ, List.dropWhile_cons_of_neg hc]
  unfold pyStrip
  rw [hdrop, List.reverse_replicate, hdrop, List.reverse_replicate]

/-- C5 counterexample: a string of 1201 spaces exceeds the 1200-character
maximum, yet `sanitize_input` fails with `EmptyInput`, not `TooLong`,
because the blank-after-trimming check runs first. -/
theorem c5_counterexample :
    1200 < (String.mk (List.replicate 1201 ' ')).length ∧
    sanitize_input (String.mk (List.replicate 1201 ' '))
      = .error .EmptyInput ∧
    (Except.error InputError.EmptyInput : Except InputError String)
      ≠ .error .TooLong := by
  refine ⟨?_, ?_, by simp⟩
  · show 1200 < (List.replicate 1201 ' ').length
    rw [List.length_replicate]
    decide
  · have hs : pyStrip (String.mk (List.replicate 1201 ' ')).toList = [] :=
      pyStrip_replicate_space 1201
    unfold sanitize_input
    split
    · rfl
    · rename_i hcond
      exact absurd (by rw [hs]; exact Bool.or_true _) hcond

/-- C5 amended: every input that is blank after trimming — including
over-long all-whitespace input — fails with `EmptyInput`; every input
that is not blank after trimming and whose length exceeds 1200
characters fails with `TooLong`. -/
theorem c5_validation_order (s : String) :
    (pyStrip s.toList = [] → sanitize_input s = .error .EmptyInput) ∧
    (pyStrip s.toList ≠ [] → 1200 < s.length →
      sanitize_input s = .error .TooLong) := by
  constructor
  · intro h
    unfold sanitize_input
    split
    · rfl
    · rename_i hcond
      exact absurd (by rw [h]; exact Bool.or_true _) hcond
  · intro h hl
    have h1 : (s.toList.isEmpty || (pyStrip s.toList).isEmpty) = false := by
      rw [Bool.or_eq_false_iff]
      constructor
      · cases hst : s.toList with
        | nil => exact absurd (by rw [hst]; rfl) h
        | cons a l => rfl
      · cases hps : pyStrip s.toList with
        | nil => exact absurd hps h
        | cons a l => rfl
    unfold sanitize_input
    rw [h1]
    simp only [Bool.false_eq_true, if_false]
    rw [if_pos hl]

theorem c5_validation_order_witness :
    sanitize_input " " = .error .EmptyInput ∧
    sanitize_input (String.mk (List.replicate 1201 'a')) = .error .TooLong := by
  constructor
  · exact (c5_validation_order " ").1 rfl
  · refine (c5_validation_order _).2 ?_ ?_
    · show pyStrip (List.replicate 1201 'a') ≠ []
      rw [pyStrip_replicate_nonspace (by decide)]
      intro hnil
      have hlen := congrArg List.length hnil
      rw [List.length_replicate] at hlen
      exact absurd hlen (by decide)
    · show 1200 < (List.replicate 1201 'a').length
      rw [List.length_replicate]
      decide

/-- C6: for a session with n stored messages (in ascending timestamp
order) and bound m, the context builder returns exactly 2*min(n,m) turns;
for each i < min(n,m), turn 2i is the user turn and turn 2i+1 the model
turn of the i-th among the last min(n,m) messages in original order — so
the output alternates user/model starting with a user turn. -/
theorem c6_context_window (msgs : List ChatMessageRec) (m : ℕ) :
    (build_conversation_context msgs m).length = 2 * min msgs.length m ∧
    ∀ i, i < min msgs.length m →
      (build_conversation_context msgs m)[2 * i]?
        = (msgs.drop (msgs.length - m))[i]?.map
            (fun r => userTurn r.user_message) ∧
      (build_conversation_context msgs m)[2 * i + 1]?
        = (msgs.drop (msgs.length - m))[i]?.map
            (fun r => modelTurn r.ai_response) := by
  have hb : build_conversation_context msgs m
      = expandTurns (msgs.drop (msgs.length - m)) := by
    unfold build_conversation_context
    rw [lastWindow_eq_drop]
  have hlen : (msgs.drop (msgs.length - m)).length = min msgs.length m := by
    rw [List.length_drop]
    omega
  constructor
  · rw [hb, expandTurns_length, hlen]
  · intro i hi
    rw [hb]
    exact expandTurns_getElem _ i

theorem c6_context_window_witness :
    (build_conversation_context
      [⟨"u1", "a1"⟩, ⟨"u2", "a2"⟩, ⟨"u3", "a3"⟩, ⟨"u4", "a4"⟩, ⟨"u5", "a5"⟩,
       ⟨"u6", "a6"⟩, ⟨"u7", "a7"⟩, ⟨"u8", "a8"⟩, ⟨"u9", "a9"⟩,
       ⟨"u10", "a10"⟩] 4).length = 8 ∧
    (build_conversation_context
      [⟨"u1", "a1"⟩, ⟨"u2", "a2"⟩, ⟨"u3", "a3"⟩, ⟨"u4", "a4"⟩, ⟨"u5", "a5"⟩,
       ⟨"u6", "a6"⟩, ⟨"u7", "a7"⟩, ⟨"u8", "a8"⟩, ⟨"u9", "a9"⟩,
       ⟨"u10", "a10"⟩] 4)[0]? = some (userTurn "u7") ∧
    (build_conversation_context
      [⟨"u1", "a1"⟩, ⟨"u2", "a2"⟩, ⟨"u3", "a3"⟩, ⟨"u4", "a4"⟩, ⟨"u5", "a5"⟩,
       ⟨"u6", "a6"⟩, ⟨"u7", "a7"⟩, ⟨"u8", "a8"⟩, ⟨"u9", "a9"⟩,
       ⟨"u10", "a10"⟩] 4)[1]? = some (modelTurn "a7") := by
  have h := c6_context_window
    [⟨"u1", "a1"⟩, ⟨"u2", "a2"⟩, ⟨"u3", "a3"⟩, ⟨"u4", "a4"⟩, ⟨"u5", "a5"⟩,
     ⟨"u6", "a6"⟩, ⟨"u7", "a7"⟩, ⟨"u8", "a8"⟩, ⟨"u9", "a9"⟩, ⟨"u10", "a10"⟩] 4
  have h0 := h.2 0 (by norm_num)
  exact ⟨h.1, h0.1, h0.2⟩

/-- C7: for the rate limiter with limit 6 and window 60 seconds, a client
with 6 admitted timestamps inside the trailing window has its next
request rejected with no cache write (the timestamp is not recorded);
once all recorded timestamps have aged past the window, they are evicted
and admission resumes, recording only the new timestamp. -/
theorem c7_rate_limit_window (cache : List ℚ) (now later : ℚ)
    (hlen : cache.length = 6)
    (hin : ∀ t ∈ cache, now - t < 60)
    (hout : ∀ t ∈ cache, 60 ≤ later - t) :
    rate_limit_check (some cache) now 6 60 = (false, []) ∧
    rate_limit_check (some cache) later 6 60 = (true, [⟨[later], 60⟩]) := by
  constructor
  · have hall : cache.filter (fun t => now - t < 60) = cache :=
      List.filter_eq_self.mpr (fun a ha => decide_eq_true (hin a ha))
    unfold rate_limit_check
    simp only [Option.getD_some]
    rw [hall, if_pos (by omega)]
  · have hnone : cache.filter (fun t => later - t < 60) = [] :=
      List.filter_eq_nil_iff.mpr
        (fun a ha => by
          simp only [decide_eq_true_eq]
          exact not_lt.mpr (hout a ha))
    unfold rate_limit_check
    simp only [Option.getD_some]
    rw [hnone, if_neg (by simp)]
    rfl

theorem c7_rate_limit_window_witness :
    rate_limit_check (some [0, 1, 2, 3, 4, 5]) 10 6 60 = (false, []) ∧
    rate_limit_check (some [0, 1, 2, 3, 4, 5]) 100 6 60
      = (true, [⟨[100], 60⟩]) := by
  apply c7_rate_limit_window
  · rfl
  · intro t ht
    fin_cases ht <;> norm_num
  · intro t ht
    fin_cases ht <;> norm_num

/-- C10: whenever `rate_limit_check` rejects a request, it performs no
cache write at all: the stored timestamp list is untouched (the in-memory
eviction is not persisted and no TTL is refreshed); a `cache.set` happens
only on admission. -/
theorem c10_reject_writes_nothing (stored : Option (List ℚ)) (now : ℚ)
    (maxr : ℕ) (window : ℚ)
    (h : (rate_limit_check stored now maxr window).1 = false) :
    (rate_limit_check stored now maxr window).2 = [] := by
  simp only [rate_limit_check] at h ⊢
  split at h
  case isTrue hc => rw [if_pos hc]
  case isFalse hc => simp at h

theorem c10_reject_writes_nothing_witness :
    (rate_limit_check (some []) 0 0 60).2 = [] :=
  c10_reject_writes_nothing (some []) 0 0 60 rfl

/-- C9: whenever `generate_response` returns normally, the returned text
is the trimmed text of one of the upstream responses, is unchanged by
further trimming, and is non-empty; hence the `ai_response` field of the
`ChatMessage` row persisted by `chat_api` is always a non-empty trimmed
string (and the row's `user_message` is the message that was sent). -/
theorem c9_persisted_response_trimmed (session_msgs : List ChatMessageRec)
    (u : String) (initialized : Bool) (call : ℕ → List Turn → UpResult)
    (jitter : ℕ → ℚ) (rec : ChatMessageRec)
    (h : chat_api_persist session_msgs u initialized call jitter = some rec) :
    rec.user_message = u ∧
    (∃ a, a < 5 ∧ ∃ s, call a (attemptContext
        (build_conversation_context session_msgs 4) u a) = .ok s ∧
      rec.ai_response = pyTrim s) ∧
    pyTrim rec.ai_response = rec.ai_response ∧
    rec.ai_response ≠ "" := by
  unfold chat_api_persist at h
  dsimp only at h
  cases initialized with
  | false => simp [generate_response] at h
  | true =>
    rcases hg : generate_response true call jitter
        (build_conversation_context session_msgs 4) u 5 with ⟨o, c, sl⟩
    rw [hg] at h
    cases o with
    | success t =>
      simp only [Option.some.injEq] at h
      have hg' : genLoop call jitter (build_conversation_context session_msgs 4)
          u 5 (List.range 5) 0 [] = (.success t, c, sl) := hg
      obtain ⟨a, ha, s, hcall, hsne, hts⟩ :=
        genLoop_success_source _ _ _ _ _ _ hg'
      have hu : rec.user_message = u := by rw [← h]
      have ht : rec.ai_response = t := by rw [← h]
      refine ⟨hu, ⟨a, List.mem_range.mp ha, s, hcall, by rw [ht, hts]⟩, ?_, ?_⟩
      · rw [ht, hts, pyTrim_idem]
      · rw [ht, hts]
        exact fun he => hsne (congrArg String.toList he)
    | unavailable => simp at h
    | fatal msg => simp at h
    | exhausted => simp at h

theorem c9_persisted_response_trimmed_witness :
    (ChatMessageRec.mk "q" "All good!").user_message = "q" ∧
    pyTrim (ChatMessageRec.mk "q" "All good!").ai_response
      = (ChatMessageRec.mk "q" "All good!").ai_response ∧
    (ChatMessageRec.mk "q" "All good!").ai_response ≠ "" := by
  have h := c9_persisted_response_trimmed [] "q" true
    (fun _ _ => UpResult.ok " All good! ") (fun _ => 1)
    ⟨"q", "All good!"⟩ rfl
  exact ⟨h.1, h.2.2.1, h.2.2.2⟩

/-- C8 counterexample: the error string "AI service is temporarily
unavailable" — the very message `generate_response` raises when the
handler is uninitialized — is classified into a fourth canned message
("high demand"), which is none of the three the claim allows
(quota/billing, auth/key, generic temporary-difficulties). -/
theorem c8_counterexample :
    chat_api_ai_error_response "AI service is temporarily unavailable"
      = (503, msgDemand) ∧
    msgDemand ≠ msgQuota ∧ msgDemand ≠ msgAuth ∧ msgDemand ≠ msgGeneric := by
  refine ⟨?_, by decide, by decide, by decide⟩
  rfl

/-- C8 amended: every completion-client failure surfaced by the chat
endpoint yields HTTP status 503 with a body drawn from exactly four
canned user-facing messages — quota/billing, auth/key, an
'unavailable'-keyword high-demand message, and a generic
temporary-difficulties message — so the body never contains the raw
upstream error text. -/
theorem c8_error_response_shape (e : String) :
    (chat_api_ai_error_response e).1 = 503 ∧
    ((chat_api_ai_error_response e).2 = msgQuota ∨
     (chat_api_ai_error_response e).2 = msgAuth ∨
     (chat_api_ai_error_response e).2 = msgDemand ∨
     (chat_api_ai_error_response e).2 = msgGeneric) := by
  refine ⟨rfl, ?_⟩
  unfold chat_api_ai_error_response classify_ai_error
  dsimp only
  split
  · exact Or.inl rfl
  · split
    · exact Or.inr (Or.inl rfl)
    · split
      · exact Or.inr (Or.inr (Or.inl rfl))
      · exact Or.inr (Or.inr (Or.inr rfl))

end ChatMCA
